import Mathlib

/-!
Verification of the crypto-sentiment MCP repository (src/client.py,
src/server.py) against its natural-language specification.

The development shallowly embeds the two Python modules:

* src/client.py : the Gemini tool-calling orchestration loop
  (MCPClient.process_query), the schema cleaner (clean_schema) and the
  MCP-to-Gemini tool conversion (convert_mcp_tools_to_gemini);
* src/server.py : the single MCP tool analyze_crypto_sentiment, including
  its job-creation / status-polling / result-fetching / analysis pipeline
  against the remote Masa API.

Remote services (the Gemini model, the MCP tool transport, the Masa HTTP
API) are modelled as oracles: functions from the request data the code
sends to the response data (or raised-exception message) the code receives.
Python exceptions are modelled with Except; machine I/O effects (printing,
sleeping) are erased, but the number of performed polls and sleeps is
tracked explicitly in the poll-loop outcome so that counting claims can be
stated.
-/

namespace CryptoMCP

/-- Python str.lower(), character-wise lower-casing (the status strings it
is applied to are plain ASCII). -/
def pyLower (s : String) : String :=
  String.mk (s.data.map Char.toLower)

/-- Python str.strip() with no argument: remove leading and trailing
whitespace. -/
def pyStrip (s : String) : String :=
  String.mk (((s.data.dropWhile Char.isWhitespace).reverse.dropWhile
    Char.isWhitespace).reverse)

/- ===================== JSON data model ===================== -/

mutual

/-- JSON values as exchanged in tool schemas and payloads. Objects are
ordered key-value sequences, mirroring insertion-ordered Python dicts. -/
inductive JValue where
  | null : JValue
  | bool (b : Bool) : JValue
  | num (n : Int) : JValue
  | str (s : String) : JValue
  | arr (xs : JList) : JValue
  | obj (fs : JObj) : JValue

/-- A JSON array, as a list of JSON values. -/
inductive JList where
  | nil : JList
  | cons (v : JValue) (rest : JList) : JList

/-- A JSON object, as an ordered association sequence. -/
inductive JObj where
  | nil : JObj
  | cons (k : String) (v : JValue) (rest : JObj) : JObj

end

/- ===================== clean_schema (src/client.py lines 176-183) ==== -/

mutual

/-- Embedding of clean_schema from src/client.py: on a dict, pop the
"title" key and rewrite each value of the "properties" dict (when present)
recursively; any non-dict value is returned unchanged. The pop of "title"
and the in-place rewrite of "properties" are merged into one ordered pass
over the fields, which agrees with the Python semantics on dicts (unique
keys, insertion order preserved). -/
def clean_schema : JValue → JValue
  | JValue.obj fs => JValue.obj (cleanFields fs)
  | v => v

/-- One pass over the fields of a dict: drop "title" entries, rewrite the value
of "properties" entries, keep every other entry untouched. -/
def cleanFields : JObj → JObj
  | JObj.nil => JObj.nil
  | JObj.cons k v rest =>
      if k = "title" then cleanFields rest
      else if k = "properties" then JObj.cons k (cleanPropsVal v) (cleanFields rest)
      else JObj.cons k v (cleanFields rest)

/-- Rewrite the value sitting under a "properties" key: when it is a dict,
clean every one of its values; otherwise leave it unchanged. -/
def cleanPropsVal : JValue → JValue
  | JValue.obj ps => JValue.obj (cleanEach ps)
  | v => v

/-- Apply clean_schema to every value of a properties dict. -/
def cleanEach : JObj → JObj
  | JObj.nil => JObj.nil
  | JObj.cons k v rest => JObj.cons k (clean_schema v) (cleanEach rest)

end

mutual

/-- A "title" key occurs anywhere in the JSON structure. -/
def hasTitle : JValue → Bool
  | JValue.obj fs => hasTitleO fs
  | JValue.arr xs => hasTitleL xs
  | _ => false

/-- A "title" key occurs anywhere in an array. -/
def hasTitleL : JList → Bool
  | JList.nil => false
  | JList.cons v rest => hasTitle v || hasTitleL rest

/-- A "title" key occurs among the fields of an object or anywhere below them. -/
def hasTitleO : JObj → Bool
  | JObj.nil => false
  | JObj.cons k v rest =>
      if k = "title" then true else hasTitle v || hasTitleO rest

end

mutual

/-- A "title" key occurs at the top of the schema or at any depth reachable
through chains of "properties" keys (the only region clean_schema visits). -/
def titleOnChain : JValue → Bool
  | JValue.obj fs => chainFields fs
  | _ => false

/-- Field-wise check for titleOnChain. -/
def chainFields : JObj → Bool
  | JObj.nil => false
  | JObj.cons k v rest =>
      if k = "title" then true
      else if k = "properties" then propsChain v || chainFields rest
      else chainFields rest

/-- Check the value under a "properties" key. -/
def propsChain : JValue → Bool
  | JValue.obj ps => eachChain ps
  | _ => false

/-- Check every value of a properties dict. -/
def eachChain : JObj → Bool
  | JObj.nil => false
  | JObj.cons _ v rest => titleOnChain v || eachChain rest

end

/- ===================== tool conversion (src/client.py lines 186-197) == -/

/-- An MCP tool descriptor as listed by the server session. -/
structure MCPTool where
  name : String
  description : String
  inputSchema : JValue

/-- A Gemini function declaration; each Tool produced by
convert_mcp_tools_to_gemini wraps exactly one of these, so the wrapper
list layer is collapsed. -/
structure FunctionDeclaration where
  name : String
  description : String
  parameters : JValue

/-- Embedding of convert_mcp_tools_to_gemini from src/client.py: each MCP
tool becomes a declaration with the same name and description, its input
schema passed through clean_schema. -/
def convert_mcp_tools_to_gemini (tools : List MCPTool) : List FunctionDeclaration :=
  tools.map (fun t => ⟨t.name, t.description, clean_schema t.inputSchema⟩)

/-- Concrete schema whose "title" under properties.x is removed by
clean_schema while the "title" under properties.x.items survives. -/
def schemaCEx : JValue :=
  JValue.obj (JObj.cons "properties"
    (JValue.obj (JObj.cons "x"
      (JValue.obj (JObj.cons "title" (JValue.str "B")
        (JObj.cons "items"
          (JValue.obj (JObj.cons "title" (JValue.str "C") JObj.nil))
          JObj.nil)))
      JObj.nil))
    JObj.nil)

/- ===================== orchestration loop (src/client.py 91-149) ===== -/

/-- The function-response payload built at the dispatch site: on success
the dict with key "result", on a caught exception the dict with key
"error" holding str(e). -/
inductive GPayload where
  | result (content : JValue) : GPayload
  | error (msg : String) : GPayload

/-- A Gemini content part as classified by the loop: a text fragment, a
function call, or the function response parts the client builds itself. -/
inductive GPart where
  | text (s : String) : GPart
  | functionCall (name : String) (args : JValue) : GPart
  | functionResponse (name : String) (payload : GPayload) : GPart

/-- A Content object: a role together with a list of parts. -/
structure GContent where
  role : String
  parts : List GPart

/-- An element of the contents list sent to generate_content: the loop
appends whole Content turns but also bare function-call Parts. -/
inductive ConvItem where
  | content (c : GContent) : ConvItem
  | part (p : GPart) : ConvItem

/-- The model oracle: from the conversation sent to generate_content to
the parts lists of the response candidates. -/
abbrev Model := List ConvItem → List (List GPart)

/-- The tool transport oracle (session.call_tool): either the result
content or the message of the raised exception. -/
abbrev Tool := String → JValue → Except String JValue

/-- Flatten the candidate parts, mirroring the two nested for-loops
(candidates with an empty parts list contribute nothing). -/
def candidateParts : List (List GPart) → List GPart
  | [] => []
  | c :: cs => c ++ candidateParts cs

/-- The function calls of a response, in part order (the loop collects the
pair of part and part.function_call; here the part is the call itself). -/
def functionCalls : List GPart → List (String × JValue)
  | [] => []
  | GPart.functionCall n a :: rest => (n, a) :: functionCalls rest
  | _ :: rest => functionCalls rest

/-- The text fragments of a response, in part order. The source guard
"elif part.text:" is a truthiness test, so empty-string text parts are
skipped and never accumulated. -/
def textsOf : List GPart → List String
  | [] => []
  | GPart.text s :: rest => if s = "" then textsOf rest else s :: textsOf rest
  | _ :: rest => textsOf rest

/-- The tool-role turn built for one dispatched call: call_tool wrapped in
try/except, success as {result: content}, any raised error as
{error: str(e)}, packed into a Content with role "tool" holding exactly
one function-response part carrying the tool name. -/
def toolTurn (tool : Tool) (n : String) (a : JValue) : GContent :=
  ⟨"tool",
   [GPart.functionResponse n
     (match tool n a with
      | Except.ok c => GPayload.result c
      | Except.error e => GPayload.error e)]⟩

/-- The conversation items appended while dispatching the calls of a response
in order: for each call, the original call part followed by its tool turn. -/
def dispatchCalls (tool : Tool) : List (String × JValue) → List ConvItem
  | [] => []
  | (n, a) :: rest =>
      ConvItem.part (GPart.functionCall n a) ::
      ConvItem.content (toolTurn tool n a) ::
      dispatchCalls tool rest

/-- The initial conversation: one user turn holding the query text. -/
def initialConv (q : String) : List ConvItem :=
  [ConvItem.content ⟨"user", [GPart.text q]⟩]

/-- Fuel-indexed embedding of the while-True loop of process_query: ask
the model, accumulate texts, terminate when no function call is present,
otherwise dispatch every call and loop. The fuel only bounds how many
model requests we unroll; none models a run still looping at that bound. -/
def processQueryGo (model : Model) (tool : Tool) :
    Nat → List ConvItem → List String → Option String
  | 0, _, _ => none
  | fuel + 1, conv, acc =>
      if (functionCalls (candidateParts (model conv))).isEmpty then
        some (pyStrip (String.intercalate "\n"
          (acc ++ textsOf (candidateParts (model conv)))))
      else
        processQueryGo model tool fuel
          (conv ++ dispatchCalls tool (functionCalls (candidateParts (model conv))))
          (acc ++ textsOf (candidateParts (model conv)))

/-- Embedding of MCPClient.process_query: run the loop from the single
user turn with an empty final-text buffer. -/
def process_query (model : Model) (tool : Tool) (fuel : Nat) (q : String) :
    Option String :=
  processQueryGo model tool fuel (initialConv q) []

/-- The conversation passed to the k-th model-completion request of a run. -/
def convAt (model : Model) (tool : Tool) (q : String) : Nat → List ConvItem
  | 0 => initialConv q
  | k + 1 =>
      convAt model tool q k ++
      dispatchCalls tool (functionCalls (candidateParts (model (convAt model tool q k))))

/-- The flattened parts of the k-th model response of a run. -/
def respAt (model : Model) (tool : Tool) (q : String) (k : Nat) : List GPart :=
  candidateParts (model (convAt model tool q k))

/-- The function calls of the k-th model response of a run. -/
def callsAt (model : Model) (tool : Tool) (q : String) (k : Nat) :
    List (String × JValue) :=
  functionCalls (respAt model tool q k)

/-- The final-text buffer accumulated from the first k model responses. -/
def accAt (model : Model) (tool : Tool) (q : String) : Nat → List String
  | 0 => []
  | k + 1 => accAt model tool q k ++ textsOf (respAt model tool q k)

/-- The calls dispatched over the first k model responses, concatenated in
order. -/
def callsUpTo (model : Model) (tool : Tool) (q : String) : Nat → List (String × JValue)
  | 0 => []
  | k + 1 => callsUpTo model tool q k ++ callsAt model tool q k

/- ============== server: analyze_crypto_sentiment (src/server.py) ===== -/

/-- Python str.split on a single comma: every comma starts a new field, so
the result always holds at least one (possibly empty) field. -/
def splitCommaList : List Char → List (List Char)
  | [] => [[]]
  | c :: cs =>
      if c = ',' then [] :: splitCommaList cs
      else
        match splitCommaList cs with
        | [] => [[c]]
        | l :: ls => (c :: l) :: ls

/-- crypto_names.split(",") from src/server.py line 47. -/
def splitComma (s : String) : List String :=
  (splitCommaList s.data).map (fun l => String.mk l)

/-- The stripped name fragments: [name.strip() for name in split]. -/
def cryptosOf (names : String) : List String :=
  (splitComma names).map pyStrip

/-- query = " OR ".join(cryptos) from src/server.py line 51. -/
def searchQuery (names : String) : String :=
  String.intercalate " OR " (cryptosOf names)

/-- The job-creation request body {query, max_results}. -/
structure CreateReq where
  query : String
  max_results : Int

/-- The data read from the job-creation response: HTTP status, the "uuid"
field (absent modelled as none) and the response text used in errors. -/
structure CreateResp where
  httpStatus : Nat
  uuid : Option String
  body : String

/-- The data read from one status poll: HTTP status, the "status" field
(missing defaulted to ""), the "error" field, and the response text. -/
structure PollResp where
  httpStatus : Nat
  status : String
  errorMsg : Option String
  body : String

/-- The data read from the result fetch: HTTP status, the "text" field of
each record under "results" (a record without "text" is none, defaulted to
"" like tweet.get), and the response text. -/
structure FetchResp where
  httpStatus : Nat
  results : List (Option String)
  body : String

/-- The analysis request body {tweets, prompt}. -/
structure AnalysisReq where
  tweets : String
  prompt : String

/-- The data read from the analysis response: HTTP status, the "result"
field (absent modelled as none) and the response text. -/
structure AnalysisResp where
  httpStatus : Nat
  result : Option String
  body : String

/-- The remote Masa service as an oracle: for each request the code can
issue, either the observed response data or the message of an exception
raised during the call (network failure, JSON decoding, ...). The poll
oracle is indexed by the poll number. -/
structure RemoteBehavior where
  create : CreateReq → Except String CreateResp
  poll : String → Nat → Except String PollResp
  fetch : String → Except String FetchResp
  analysis : AnalysisReq → Except String AnalysisResp

/-- Outcome of the status-polling phase (src/server.py lines 68-88). The
two counters record how many status polls were issued and how many
interval sleeps were performed; timedOut is the for-else fall-through,
raised is an exception escaping a poll. -/
inductive PollOutcome where
  | completed (polls sleeps : Nat) : PollOutcome
  | statusCheckFailed (polls : Nat) (body : String) : PollOutcome
  | jobFailed (polls : Nat) (msg : String) : PollOutcome
  | timedOut (polls sleeps : Nat) : PollOutcome
  | raised (polls : Nat) (msg : String) : PollOutcome

/-- The polling for-loop: each attempt issues one GET; non-200 aborts,
status "completed" (lower-cased) breaks out, "failed"/"error" aborts with
the error message of the job, anything else sleeps the fixed 5-second interval
and retries; exhausting the attempts falls through to the timeout branch. -/
def pollLoopAux (poll : Nat → Except String PollResp) :
    Nat → Nat → Nat → PollOutcome
  | 0, polls, sleeps => PollOutcome.timedOut polls sleeps
  | n + 1, polls, sleeps =>
      match poll polls with
      | Except.error e => PollOutcome.raised polls e
      | Except.ok r =>
          if r.httpStatus ≠ 200 then PollOutcome.statusCheckFailed (polls + 1) r.body
          else if pyLower r.status = "completed" then PollOutcome.completed (polls + 1) sleeps
          else if pyLower r.status = "failed" ∨ pyLower r.status = "error" then
            PollOutcome.jobFailed (polls + 1) (r.errorMsg.getD "Unknown error")
          else pollLoopAux poll n (polls + 1) (sleeps + 1)

/-- Run the polling phase from zero performed polls and sleeps. -/
def pollLoop (poll : Nat → Except String PollResp) (maxAttempts : Nat) : PollOutcome :=
  pollLoopAux poll maxAttempts 0 0

/-- max_attempts = 10 from src/server.py line 69. -/
def serverMaxAttempts : Nat := 10

/-- A poll response that keeps the loop waiting: HTTP 200 with a status
that lower-cases to none of "completed", "failed", "error". -/
def pendingOk : Except String PollResp → Bool
  | Except.ok r =>
      (r.httpStatus == 200) && (pyLower r.status != "completed") &&
      (pyLower r.status != "failed") && (pyLower r.status != "error")
  | Except.error _ => false

/-- A poll response that completes the job: HTTP 200 with a status that
lower-cases to "completed". -/
def donePoll : Except String PollResp → Bool
  | Except.ok r => (r.httpStatus == 200) && (pyLower r.status == "completed")
  | Except.error _ => false

/-- The fixed analysis prompt built at src/server.py lines 108-113,
parameterized only by the raw crypto_names argument. -/
def analysisPrompt (crypto_names : String) : String :=
  "Analyze sentiment for " ++ crypto_names ++ " from these tweets. " ++
  "Provide:\n1. Overall sentiment (positive/negative/neutral)\n" ++
  "2. Sentiment percentage breakdown\n3. Key positive/negative themes\n" ++
  "4. Notable emotional indicators\nFormat clearly with headings."

/-- The analysis request body: tweets newline-joined, the fixed prompt. -/
def buildAnalysisReq (tweets : List String) (crypto_names : String) : AnalysisReq :=
  ⟨String.intercalate "\n" tweets, analysisPrompt crypto_names⟩

/-- The job-creation request body: the OR-joined query and max_results. -/
def buildCreateReq (names : String) (max_results : Int) : CreateReq :=
  ⟨searchQuery names, max_results⟩

/-- Step 4 of the tool (src/server.py lines 105-125): one POST of the
analysis request; non-200 yields the "Analysis failed" string, otherwise
the "result" field with the fixed fallback string when it is absent. An
Except.error is an exception propagating to the outer handler of the tool. -/
def analysisStep (analysisFn : AnalysisReq → Except String AnalysisResp)
    (tweets : List String) (names : String) : Except String String :=
  match analysisFn (buildAnalysisReq tweets names) with
  | Except.error e => Except.error e
  | Except.ok ar =>
      if ar.httpStatus ≠ 200 then Except.ok ("Analysis failed: " ++ ar.body)
      else Except.ok (ar.result.getD "No analysis result returned")

/-- Step 3 of the tool (src/server.py lines 90-103): fetch the results,
abort on non-200, read the text fields of the tweets, abort when no tweet was
returned, otherwise run the analysis step. -/
def fetchStep (b : RemoteBehavior) (jobId : String) (names : String) :
    Except String String :=
  match b.fetch jobId with
  | Except.error e => Except.error e
  | Except.ok fr =>
      if fr.httpStatus ≠ 200 then Except.ok ("Error fetching results: " ++ fr.body)
      else
        let tweets := fr.results.map (fun t => t.getD "")
        if tweets.isEmpty then Except.ok "No tweets found for analysis"
        else analysisStep b.analysis tweets names

/-- Step 2 of the tool: the polling phase, mapped onto the strings the
source returns on each outcome, continuing with the fetch on completion. -/
def pollStep (b : RemoteBehavior) (jobId : String) (names : String) :
    Except String String :=
  match pollLoop (b.poll jobId) serverMaxAttempts with
  | PollOutcome.raised _ e => Except.error e
  | PollOutcome.statusCheckFailed _ body => Except.ok ("Status check failed: " ++ body)
  | PollOutcome.jobFailed _ msg => Except.ok ("Search job failed: " ++ msg)
  | PollOutcome.timedOut _ _ => Except.ok "Error: Twitter search timed out"
  | PollOutcome.completed _ _ => fetchStep b jobId names

/-- The body of the try block of analyze_crypto_sentiment: split and strip
the names, guard against an empty list, create the search job (non-200 or
missing/empty "uuid" abort), then poll, fetch and analyze. Except.error
carries the message of an exception reaching the outer try/except. -/
def analyzeInner (b : RemoteBehavior) (crypto_names : String) (max_results : Int) :
    Except String String :=
  let cryptos := cryptosOf crypto_names
  if cryptos.isEmpty then
    Except.ok "Error: Please provide at least one cryptocurrency name"
  else
    match b.create (buildCreateReq crypto_names max_results) with
    | Except.error e => Except.error e
    | Except.ok cr =>
        if cr.httpStatus ≠ 200 then Except.ok ("Error creating search job: " ++ cr.body)
        else
          let jobId := cr.uuid.getD ""
          if jobId = "" then Except.ok "Failed to get job ID from Twitter search response"
          else pollStep b jobId crypto_names

/-- Embedding of the MCP tool analyze_crypto_sentiment: the whole body is
wrapped in try/except, so every exception becomes the prefixed diagnostic
string and the tool always returns a string. -/
def analyze_crypto_sentiment (b : RemoteBehavior) (crypto_names : String)
    (max_results : Int) : String :=
  match analyzeInner b crypto_names max_results with
  | Except.ok s => s
  | Except.error e => "Error in sentiment analysis: " ++ e

/- ===================== server tool registry ===================== -/

/-- A declared tool parameter: its name and optional integer default. -/
structure ToolParam where
  name : String
  defaultVal : Option Int

/-- A tool registered on the FastMCP server: the function name, its
parameters, and the handler the registration decorates. -/
structure ToolDecl where
  name : String
  params : List ToolParam
  handler : RemoteBehavior → String → Int → String

/-- The tool registry of src/server.py: the single @mcp.tool() decorated
function analyze_crypto_sentiment(crypto_names, max_results=100). -/
def serverTools : List ToolDecl :=
  [⟨"analyze_crypto_sentiment",
    [⟨"crypto_names", none⟩, ⟨"max_results", some 100⟩],
    analyze_crypto_sentiment⟩]

/- ===================== concrete witnesses ===================== -/

/-- A model oracle for witnesses: one function call on the first request,
a plain text answer afterwards. -/
def wModel : Model := fun conv =>
  if conv.length = 1 then [[GPart.functionCall "t" JValue.null]]
  else [[GPart.text "hi"]]

/-- A tool oracle for witnesses that always succeeds. -/
def wTool : Tool := fun _ _ => Except.ok JValue.null

/-- A tool oracle for witnesses that always raises. -/
def wToolErr : Tool := fun _ _ => Except.error "boom"

/-- A pending status poll response. -/
def pendingResp : Except String PollResp := Except.ok ⟨200, "pending", none, ""⟩

/-- A completed status poll response. -/
def doneResp : Except String PollResp := Except.ok ⟨200, "completed", none, ""⟩

/-- A failed status poll response with no error field. -/
def failedResp : Except String PollResp := Except.ok ⟨200, "failed", none, ""⟩

/-- Witness poll sequence pending, pending, completed, ... -/
def wPollA : Nat → Except String PollResp := fun i =>
  if i < 2 then pendingResp else doneResp

/-- Witness poll sequence that stays pending forever. -/
def wPollB : Nat → Except String PollResp := fun _ => pendingResp

/-- Witness poll sequence pending, failed, ... -/
def wPollF : Nat → Except String PollResp := fun i =>
  if i = 0 then pendingResp else failedResp

/-- Witness analysis oracle answering HTTP 200 without a "result" field. -/
def wAnalysisFn : AnalysisReq → Except String AnalysisResp :=
  fun _ => Except.ok ⟨200, none, ""⟩

/-- A remote behavior whose job creation answers HTTP 500, used to show
that the empty crypto_names string still reaches the creation step. -/
def b0 : RemoteBehavior :=
  ⟨fun _ => Except.ok ⟨500, none, "boom"⟩,
   fun _ _ => pendingResp,
   fun _ => Except.ok ⟨200, [], ""⟩,
   fun _ => Except.ok ⟨200, none, ""⟩⟩

/- ===================== theorems: schema cleaning (C6) ================ -/

mutual

/-- After clean_schema no title remains on the properties chain. -/
theorem chain_clean_schema : ∀ v : JValue, titleOnChain (clean_schema v) = false
  | JValue.obj fs => by
      simpa [clean_schema, titleOnChain] using chain_cleanFields fs
  | JValue.null => rfl
  | JValue.bool _ => rfl
  | JValue.num _ => rfl
  | JValue.str _ => rfl
  | JValue.arr _ => rfl

/-- Field-wise version of chain_clean_schema. -/
theorem chain_cleanFields : ∀ fs : JObj, chainFields (cleanFields fs) = false
  | JObj.nil => rfl
  | JObj.cons k v rest => by
      by_cases hk : k = "title"
      · simpa [cleanFields, hk] using chain_cleanFields rest
      · by_cases hp : k = "properties"
        · simpa [cleanFields, chainFields, hk, hp] using
            And.intro (chain_cleanPropsVal v) (chain_cleanFields rest)
        · simpa [cleanFields, chainFields, hk, hp] using chain_cleanFields rest

/-- The cleaned value under a "properties" key has no chain title. -/
theorem chain_cleanPropsVal : ∀ v : JValue, propsChain (cleanPropsVal v) = false
  | JValue.obj ps => by
      simpa [cleanPropsVal, propsChain] using chain_cleanEach ps
  | JValue.null => rfl
  | JValue.bool _ => rfl
  | JValue.num _ => rfl
  | JValue.str _ => rfl
  | JValue.arr _ => rfl

/-- Every cleaned property value has no chain title. -/
theorem chain_cleanEach : ∀ ps : JObj, eachChain (cleanEach ps) = false
  | JObj.nil => rfl
  | JObj.cons k v rest => by
      simpa [cleanEach, eachChain] using
        And.intro (chain_clean_schema v) (chain_cleanEach rest)

end

/-- C6 counterexample: schemaCEx has a title at nesting depth reachable
through properties (the hypothesis of the claim), yet the declaration produced
by convert_mcp_tools_to_gemini still contains a title: the one nested
under properties.x.items, which clean_schema does not visit because it
recurses only through "properties" keys. -/
theorem clean_schema_keeps_title_outside_properties :
    titleOnChain schemaCEx = true
    ∧ (convert_mcp_tools_to_gemini [⟨"t", "d", schemaCEx⟩]).map
        (fun d => hasTitle d.parameters) = [true] := by
  decide

/-- C6 amended: for every input schema, the schema produced by
convert_mcp_tools_to_gemini (that is, clean_schema of the input) contains
no "title" key at the root or at any node reachable through chains of
"properties" keys; a title nested under any other key (such as "items")
is not removed. -/
theorem clean_schema_strips_titles_on_properties_chain (tools : List MCPTool) :
    (convert_mcp_tools_to_gemini tools).map (fun d => titleOnChain d.parameters) =
      tools.map (fun _ => false) := by
  induction tools with
  | nil => rfl
  | cons t rest ih =>
      simp [convert_mcp_tools_to_gemini] at ih ⊢
      exact ⟨chain_clean_schema t.inputSchema, ih⟩

/- ===================== theorems: tool surface (C8) =================== -/

/-- C8 counterexample: the tool server of src/server.py does not expose
three tools and exposes no tool named search_tweets, analyze_tweets or
get_crypto_sentiment; its registry holds exactly one registration. -/
theorem server_tools_not_three :
    serverTools.length ≠ 3
    ∧ serverTools.map (fun t => t.name) ≠
        ["search_tweets", "analyze_tweets", "get_crypto_sentiment"]
    ∧ ((serverTools.map (fun t => t.name)).contains "search_tweets"
        || (serverTools.map (fun t => t.name)).contains "analyze_tweets"
        || (serverTools.map (fun t => t.name)).contains "get_crypto_sentiment") = false := by
  decide

/-- C8 amended: the tool server exposes to the model exactly one callable
tool, named analyze_crypto_sentiment, with parameters crypto_names and
max_results defaulting to 100, whose handler is the sentiment pipeline
embedded as analyze_crypto_sentiment. -/
theorem server_tools_exactly_one :
    serverTools.map (fun t => t.name) = ["analyze_crypto_sentiment"]
    ∧ serverTools.map (fun t => t.params.map (fun p => (p.name, p.defaultVal))) =
        [[("crypto_names", (none : Option Int)), ("max_results", some 100)]]
    ∧ serverTools.map (fun t => t.handler) = [analyze_crypto_sentiment] :=
  ⟨by decide, by decide, rfl⟩

/- ===================== theorems: split guard (C10) =================== -/

/-- Splitting a character list on commas always yields at least one field. -/
theorem splitCommaList_ne_nil : ∀ cs : List Char, splitCommaList cs ≠ [] := by
  intro cs
  induction cs with
  | nil => simp [splitCommaList]
  | cons c cs ih =>
      by_cases hc : c = ','
      · simp [splitCommaList, hc]
      · simp only [splitCommaList, if_neg hc]
        cases h : splitCommaList cs with
        | nil => simp
        | cons l ls => simp

/-- The stripped crypto-name list is never empty. -/
theorem cryptosOf_not_empty (names : String) : (cryptosOf names).isEmpty = false := by
  cases h : splitCommaList names.data with
  | nil => exact absurd h (splitCommaList_ne_nil _)
  | cons l ls => simp [cryptosOf, splitComma, h]

/-- C10: for every input string, splitting on commas yields at least one
element, so the guard returning "Error: Please provide at least one
cryptocurrency name" can never fire; in particular the empty string splits
into [""], its search job is created with an empty query, and the run
proceeds past the guard to the job-creation call (observed through the
behavior b0, whose creation response is reflected in the result). -/
theorem empty_names_guard_unreachable :
    (∀ names : String, (cryptosOf names).isEmpty = false)
    ∧ cryptosOf "" = [""]
    ∧ (∀ max_results : Int, buildCreateReq "" max_results = ⟨"", max_results⟩)
    ∧ analyze_crypto_sentiment b0 "" 10 = "Error creating search job: boom" := by
  refine ⟨cryptosOf_not_empty, by decide, ?_, by decide⟩
  intro mr
  have h : searchQuery "" = "" := by decide
  simp [buildCreateReq, h]

/- ===================== theorems: polling phase (C4, C5) ============== -/

/-- Unpack what a pending poll response means. -/
theorem pendingOk_spec (e : Except String PollResp) (h : pendingOk e = true) :
    ∃ r, e = Except.ok r ∧ r.httpStatus = 200 ∧ pyLower r.status ≠ "completed"
      ∧ pyLower r.status ≠ "failed" ∧ pyLower r.status ≠ "error" := by
  cases e with
  | error msg => simp [pendingOk] at h
  | ok r =>
      refine ⟨r, rfl, ?_⟩
      simpa [pendingOk, and_assoc] using h

/-- Unpack what a completed poll response means. -/
theorem donePoll_spec (e : Except String PollResp) (h : donePoll e = true) :
    ∃ r, e = Except.ok r ∧ r.httpStatus = 200 ∧ pyLower r.status = "completed" := by
  cases e with
  | error msg => simp [donePoll] at h
  | ok r =>
      refine ⟨r, rfl, ?_⟩
      simpa [donePoll] using h

/-- A pending poll consumes one attempt and performs one sleep. -/
theorem pollLoopAux_pending_step (poll : Nat → Except String PollResp)
    (n polls sleeps : Nat) (h : pendingOk (poll polls) = true) :
    pollLoopAux poll (n + 1) polls sleeps = pollLoopAux poll n (polls + 1) (sleeps + 1) := by
  obtain ⟨r, he, h200, hc, hf, herr⟩ := pendingOk_spec _ h
  simp [pollLoopAux, he, h200, hc, hf, herr]

/-- A completed poll ends the loop at once, counting the final poll but no
further sleep. -/
theorem pollLoopAux_done_step (poll : Nat → Except String PollResp)
    (n polls sleeps : Nat) (h : donePoll (poll polls) = true) :
    pollLoopAux poll (n + 1) polls sleeps = PollOutcome.completed (polls + 1) sleeps := by
  obtain ⟨r, he, h200, hc⟩ := donePoll_spec _ h
  simp [pollLoopAux, he, h200, hc]

/-- When the next n polls are all pending, the loop exhausts them, adding
one poll and one sleep per attempt. -/
theorem pollLoopAux_all_pending (poll : Nat → Except String PollResp) :
    ∀ n polls sleeps, (∀ i, i < n → pendingOk (poll (polls + i)) = true) →
    pollLoopAux poll n polls sleeps = PollOutcome.timedOut (polls + n) (sleeps + n) := by
  intro n
  induction n with
  | zero => intro polls sleeps _; simp [pollLoopAux]
  | succ n ih =>
      intro polls sleeps h
      rw [pollLoopAux_pending_step poll n polls sleeps
        (by simpa using h 0 (Nat.succ_pos n))]
      rw [ih (polls + 1) (sleeps + 1) (fun i hi => by
        have hx := h (i + 1) (by omega)
        rwa [show polls + (i + 1) = polls + 1 + i by omega] at hx)]
      congr 1 <;> omega

/-- C4: in the polling phase of analyze_crypto_sentiment, a status
sequence pending, pending, completed ends the loop successfully after
exactly 3 polls and 2 interval sleeps (each sleep being the fixed
5-second interval of the source); and when every status across
maxAttempts polls is pending, the loop falls through to the timeout
branch (the "Error: Twitter search timed out" return, the TimeoutError
of the spec) having performed exactly maxAttempts polls. -/
theorem poll_phase_spec (poll : Nat → Except String PollResp) (maxAttempts : Nat) :
    (3 ≤ maxAttempts → pendingOk (poll 0) = true → pendingOk (poll 1) = true →
      donePoll (poll 2) = true →
      pollLoop poll maxAttempts = PollOutcome.completed 3 2)
    ∧ ((∀ i, i < maxAttempts → pendingOk (poll i) = true) →
      pollLoop poll maxAttempts = PollOutcome.timedOut maxAttempts maxAttempts) := by
  constructor
  · intro h3 h0 h1 h2
    obtain ⟨m, rfl⟩ : ∃ m, maxAttempts = m + 3 := ⟨maxAttempts - 3, by omega⟩
    show pollLoopAux poll (m + 2 + 1) 0 0 = _
    rw [pollLoopAux_pending_step poll (m + 2) 0 0 h0]
    show pollLoopAux poll (m + 1 + 1) 1 1 = _
    rw [pollLoopAux_pending_step poll (m + 1) 1 1 h1]
    exact pollLoopAux_done_step poll m 2 2 h2
  · intro hall
    have h := pollLoopAux_all_pending poll maxAttempts 0 0
      (fun i hi => by simpa using hall i hi)
    simpa [pollLoop] using h

/-- C4 witness: with polls pending, pending, completed the loop completes
after 3 polls and 2 sleeps; with every poll pending it times out after
exactly max_attempts = 10 polls. -/
theorem poll_phase_spec_witness :
    pollLoop wPollA 10 = PollOutcome.completed 3 2
    ∧ pollLoop wPollB 10 = PollOutcome.timedOut 10 10 :=
  ⟨(poll_phase_spec wPollA 10).1 (by decide) (by decide) (by decide) (by decide),
   (poll_phase_spec wPollB 10).2 (by decide)⟩

/-- C5: a status sequence pending, failed makes the polling phase abort
with the job-failure outcome (the "Search job failed" return, the
RemoteError of the spec) right after the second poll; the outcome is
unchanged under any modification of the poll oracle beyond its first two
answers, so no further status poll is consulted. -/
theorem poll_phase_failed_stops (poll : Nat → Except String PollResp)
    (maxAttempts : Nat) (r1 : PollResp) (hm : 2 ≤ maxAttempts)
    (h0 : pendingOk (poll 0) = true)
    (h1 : poll 1 = Except.ok r1) (hs : r1.httpStatus = 200)
    (hf : pyLower r1.status = "failed" ∨ pyLower r1.status = "error") :
    pollLoop poll maxAttempts = PollOutcome.jobFailed 2 (r1.errorMsg.getD "Unknown error")
    ∧ ∀ poll2 : Nat → Except String PollResp,
        (∀ i, i < 2 → poll2 i = poll i) →
        pollLoop poll2 maxAttempts =
          PollOutcome.jobFailed 2 (r1.errorMsg.getD "Unknown error") := by
  have key : ∀ poll2 : Nat → Except String PollResp,
      (∀ i, i < 2 → poll2 i = poll i) →
      pollLoop poll2 maxAttempts =
        PollOutcome.jobFailed 2 (r1.errorMsg.getD "Unknown error") := by
    intro poll2 hagree
    obtain ⟨m, rfl⟩ : ∃ m, maxAttempts = m + 2 := ⟨maxAttempts - 2, by omega⟩
    have hne : pyLower r1.status ≠ "completed" := by
      rcases hf with h | h <;> rw [h] <;> decide
    show pollLoopAux poll2 (m + 1 + 1) 0 0 = _
    rw [pollLoopAux_pending_step poll2 (m + 1) 0 0
      (by rw [hagree 0 (by omega)]; exact h0)]
    show pollLoopAux poll2 (m + 1) 1 1 = _
    simp only [pollLoopAux, hagree 1 (by omega), h1]
    rw [if_neg (by simp [hs]), if_neg hne, if_pos hf]
  exact ⟨key poll (fun _ _ => rfl), key⟩

/-- C5 witness: polls pending then failed abort with the job-failure
outcome after exactly 2 polls, for max_attempts = 10 as in the source. -/
theorem poll_phase_failed_stops_witness :
    pollLoop wPollF 10 = PollOutcome.jobFailed 2 "Unknown error" := by
  have h := poll_phase_failed_stops wPollF 10 ⟨200, "failed", none, ""⟩
    (by decide) (by decide) rfl rfl (by left; decide)
  simpa using h.1

/- ===================== theorems: analysis step (C7) ================== -/

/-- C7: the sentiment-analysis step issues its single POST with the fixed
analysis prompt for the given names; when the response carries no
"result" field the outcome is the fixed diagnostic "No analysis result
returned" (the RemoteError of the spec, surfaced as a diagnostic string
like every other failure of this tool) and never a result-field value,
which is returned only when the field is present. -/
theorem analysis_step_spec (analysisFn : AnalysisReq → Except String AnalysisResp)
    (tweets : List String) (names : String) :
    (buildAnalysisReq tweets names).prompt = analysisPrompt names
    ∧ (∀ ar : AnalysisResp, analysisFn (buildAnalysisReq tweets names) = Except.ok ar →
        ar.httpStatus = 200 → ar.result = none →
        analysisStep analysisFn tweets names = Except.ok "No analysis result returned")
    ∧ (∀ ar : AnalysisResp, ∀ s : String,
        analysisFn (buildAnalysisReq tweets names) = Except.ok ar →
        ar.httpStatus = 200 → ar.result = some s →
        analysisStep analysisFn tweets names = Except.ok s) := by
  refine ⟨rfl, ?_, ?_⟩
  · intro ar har h200 hnone
    simp [analysisStep, har, h200, hnone]
  · intro ar s har h200 hsome
    simp [analysisStep, har, h200, hsome]

/-- C7 witness: an HTTP-200 analysis response without a "result" field
yields the fixed diagnostic outcome. -/
theorem analysis_step_spec_witness :
    analysisStep wAnalysisFn ["x"] "Bitcoin" = Except.ok "No analysis result returned" :=
  (analysis_step_spec wAnalysisFn ["x"] "Bitcoin").2.1 ⟨200, none, ""⟩ rfl rfl rfl

/- ===================== theorems: tool totality (C9) ================== -/

/-- Case enumeration for the analysis step. -/
theorem analysisStep_outcomes (analysisFn : AnalysisReq → Except String AnalysisResp)
    (tweets : List String) (names : String) :
    (∃ e, analysisStep analysisFn tweets names = Except.error e)
    ∨ (∃ t, analysisStep analysisFn tweets names = Except.ok ("Analysis failed: " ++ t))
    ∨ analysisStep analysisFn tweets names = Except.ok "No analysis result returned"
    ∨ (∃ ar s, analysisFn (buildAnalysisReq tweets names) = Except.ok ar
        ∧ ar.httpStatus = 200 ∧ ar.result = some s
        ∧ analysisStep analysisFn tweets names = Except.ok s) := by
  rcases hf : analysisFn (buildAnalysisReq tweets names) with e | ar
  · exact Or.inl ⟨e, by simp [analysisStep, hf]⟩
  · by_cases h200 : ar.httpStatus = 200
    · rcases hres : ar.result with _ | s
      · exact Or.inr (Or.inr (Or.inl (by simp [analysisStep, hf, h200, hres])))
      · exact Or.inr (Or.inr (Or.inr
          ⟨ar, s, hf.symm ▸ rfl, h200, hres, by simp [analysisStep, hf, h200, hres]⟩))
    · exact Or.inr (Or.inl ⟨ar.body, by simp [analysisStep, hf, h200]⟩)

/-- Case enumeration for the try-block body of analyze_crypto_sentiment:
its outcome is an escaped exception message, one of the diagnostic
strings of the early returns of the source, or the analysis result field. The
empty-names guard string never occurs, by cryptosOf_not_empty. -/
theorem analyzeInner_outcomes (b : RemoteBehavior) (names : String) (maxr : Int) :
    (∃ e, analyzeInner b names maxr = Except.error e)
    ∨ (∃ t, analyzeInner b names maxr = Except.ok ("Error creating search job: " ++ t))
    ∨ analyzeInner b names maxr = Except.ok "Failed to get job ID from Twitter search response"
    ∨ (∃ t, analyzeInner b names maxr = Except.ok ("Status check failed: " ++ t))
    ∨ (∃ m, analyzeInner b names maxr = Except.ok ("Search job failed: " ++ m))
    ∨ analyzeInner b names maxr = Except.ok "Error: Twitter search timed out"
    ∨ (∃ t, analyzeInner b names maxr = Except.ok ("Error fetching results: " ++ t))
    ∨ analyzeInner b names maxr = Except.ok "No tweets found for analysis"
    ∨ (∃ t, analyzeInner b names maxr = Except.ok ("Analysis failed: " ++ t))
    ∨ analyzeInner b names maxr = Except.ok "No analysis result returned"
    ∨ (∃ req ar s, b.analysis req = Except.ok ar ∧ ar.httpStatus = 200
        ∧ ar.result = some s ∧ analyzeInner b names maxr = Except.ok s) := by
  have hguard := cryptosOf_not_empty names
  rcases hc : b.create (buildCreateReq names maxr) with e | cr
  · exact Or.inl ⟨e, by simp [analyzeInner, hguard, hc]⟩
  · by_cases h200 : cr.httpStatus = 200
    · by_cases hid : cr.uuid.getD "" = ""
      · exact Or.inr (Or.inr (Or.inl (by simp [analyzeInner, hguard, hc, h200, hid])))
      · rcases hp : pollLoop (b.poll (cr.uuid.getD "")) serverMaxAttempts with
          ⟨p, s⟩ | ⟨pn, body⟩ | ⟨pn, msg⟩ | ⟨p, s⟩ | ⟨pn, e⟩
        · -- completed: continue with the fetch
          rcases hfetch : b.fetch (cr.uuid.getD "") with e | fr
          · exact Or.inl ⟨e, by
              simp [analyzeInner, pollStep, fetchStep, hguard, hc, h200, hid, hp, hfetch]⟩
          · by_cases hf200 : fr.httpStatus = 200
            · by_cases hemp : (fr.results.map (fun t => t.getD "")).isEmpty = true
              · refine Or.inr (Or.inr (Or.inr (Or.inr (Or.inr (Or.inr (Or.inr (Or.inl ?_)))))))
                simp [analyzeInner, pollStep, fetchStep, hguard, hc, h200, hid, hp,
                  hfetch, hf200, hemp]
              · have hemp2 : (fr.results.map (fun t => t.getD "")).isEmpty = false := by
                  simpa using hemp
                rcases analysisStep_outcomes b.analysis
                    (fr.results.map (fun t => t.getD "")) names with
                  ⟨e, ha⟩ | ⟨t, ha⟩ | ha | ⟨ar, s, haf, ha2, hres, ha⟩
                · exact Or.inl ⟨e, by
                    simp [analyzeInner, pollStep, fetchStep, hguard, hc, h200, hid, hp,
                      hfetch, hf200, hemp2, ha]⟩
                · refine Or.inr (Or.inr (Or.inr (Or.inr (Or.inr (Or.inr (Or.inr
                    (Or.inr (Or.inl ⟨t, ?_⟩))))))))
                  simp [analyzeInner, pollStep, fetchStep, hguard, hc, h200, hid, hp,
                    hfetch, hf200, hemp2, ha]
                · refine Or.inr (Or.inr (Or.inr (Or.inr (Or.inr (Or.inr (Or.inr
                    (Or.inr (Or.inr (Or.inl ?_)))))))) )
                  simp [analyzeInner, pollStep, fetchStep, hguard, hc, h200, hid, hp,
                    hfetch, hf200, hemp2, ha]
                · refine Or.inr (Or.inr (Or.inr (Or.inr (Or.inr (Or.inr (Or.inr
                    (Or.inr (Or.inr (Or.inr
                      ⟨buildAnalysisReq (fr.results.map (fun t => t.getD "")) names,
                       ar, s, haf, ha2, hres, ?_⟩)))))))) )
                  simp [analyzeInner, pollStep, fetchStep, hguard, hc, h200, hid, hp,
                    hfetch, hf200, hemp2, ha]
            · refine Or.inr (Or.inr (Or.inr (Or.inr (Or.inr (Or.inr (Or.inl
                ⟨fr.body, ?_⟩))))))
              simp [analyzeInner, pollStep, fetchStep, hguard, hc, h200, hid, hp,
                hfetch, hf200]
        · refine Or.inr (Or.inr (Or.inr (Or.inl ⟨body, ?_⟩)))
          simp [analyzeInner, pollStep, hguard, hc, h200, hid, hp]
        · refine Or.inr (Or.inr (Or.inr (Or.inr (Or.inl ⟨msg, ?_⟩))))
          simp [analyzeInner, pollStep, hguard, hc, h200, hid, hp]
        · refine Or.inr (Or.inr (Or.inr (Or.inr (Or.inr (Or.inl ?_)))))
          simp [analyzeInner, pollStep, hguard, hc, h200, hid, hp]
        · exact Or.inl ⟨e, by simp [analyzeInner, pollStep, hguard, hc, h200, hid, hp]⟩
    · exact Or.inr (Or.inl ⟨cr.body, by simp [analyzeInner, hguard, hc, h200]⟩)

/-- C9: for every remote behavior and every input, analyze_crypto_sentiment
returns a string (it is a total function into String, so no exception
escapes: the outer try/except folds every escaped exception into the
prefixed diagnostic of the first disjunct), and that string is either one
of the descriptive failure strings of the early returns of the source or the
analysis result field of a successful run; the empty-names guard string is
never among the outcomes. -/
theorem analyze_crypto_sentiment_total (b : RemoteBehavior) (names : String) (maxr : Int) :
    (∃ e, analyze_crypto_sentiment b names maxr = "Error in sentiment analysis: " ++ e)
    ∨ (∃ t, analyze_crypto_sentiment b names maxr = "Error creating search job: " ++ t)
    ∨ analyze_crypto_sentiment b names maxr = "Failed to get job ID from Twitter search response"
    ∨ (∃ t, analyze_crypto_sentiment b names maxr = "Status check failed: " ++ t)
    ∨ (∃ m, analyze_crypto_sentiment b names maxr = "Search job failed: " ++ m)
    ∨ analyze_crypto_sentiment b names maxr = "Error: Twitter search timed out"
    ∨ (∃ t, analyze_crypto_sentiment b names maxr = "Error fetching results: " ++ t)
    ∨ analyze_crypto_sentiment b names maxr = "No tweets found for analysis"
    ∨ (∃ t, analyze_crypto_sentiment b names maxr = "Analysis failed: " ++ t)
    ∨ analyze_crypto_sentiment b names maxr = "No analysis result returned"
    ∨ (∃ req ar s, b.analysis req = Except.ok ar ∧ ar.httpStatus = 200
        ∧ ar.result = some s ∧ analyze_crypto_sentiment b names maxr = s) := by
  rcases analyzeInner_outcomes b names maxr with
    ⟨e, h⟩ | ⟨t, h⟩ | h | ⟨t, h⟩ | ⟨m, h⟩ | h | ⟨t, h⟩ | h | ⟨t, h⟩ | h |
    ⟨req, ar, s, haf, ha2, hres, h⟩
  · exact Or.inl ⟨e, by simp [analyze_crypto_sentiment, h]⟩
  · exact Or.inr (Or.inl ⟨t, by simp [analyze_crypto_sentiment, h]⟩)
  · exact Or.inr (Or.inr (Or.inl (by simp [analyze_crypto_sentiment, h])))
  · exact Or.inr (Or.inr (Or.inr (Or.inl ⟨t, by simp [analyze_crypto_sentiment, h]⟩)))
  · exact Or.inr (Or.inr (Or.inr (Or.inr (Or.inl
      ⟨m, by simp [analyze_crypto_sentiment, h]⟩))))
  · exact Or.inr (Or.inr (Or.inr (Or.inr (Or.inr (Or.inl
      (by simp [analyze_crypto_sentiment, h]))))))
  · exact Or.inr (Or.inr (Or.inr (Or.inr (Or.inr (Or.inr (Or.inl
      ⟨t, by simp [analyze_crypto_sentiment, h]⟩))))))
  · exact Or.inr (Or.inr (Or.inr (Or.inr (Or.inr (Or.inr (Or.inr (Or.inl
      (by simp [analyze_crypto_sentiment, h]))))))))
  · exact Or.inr (Or.inr (Or.inr (Or.inr (Or.inr (Or.inr (Or.inr (Or.inr (Or.inl
      ⟨t, by simp [analyze_crypto_sentiment, h]⟩))))))))
  · exact Or.inr (Or.inr (Or.inr (Or.inr (Or.inr (Or.inr (Or.inr (Or.inr (Or.inr
      (Or.inl (by simp [analyze_crypto_sentiment, h]))))))))))
  · exact Or.inr (Or.inr (Or.inr (Or.inr (Or.inr (Or.inr (Or.inr (Or.inr (Or.inr
      (Or.inr ⟨req, ar, s, haf, ha2, hres,
        by simp [analyze_crypto_sentiment, h]⟩)))))))))

/- ===================== theorems: orchestration loop (C1-C3) ========== -/

/-- One loop iteration whose response still contains a function call: the
loop dispatches every call and issues the next model request. -/
theorem processQueryGo_step (model : Model) (tool : Tool) (fuel : Nat)
    (conv : List ConvItem) (acc : List String)
    (h : (functionCalls (candidateParts (model conv))).isEmpty = false) :
    processQueryGo model tool (fuel + 1) conv acc =
      processQueryGo model tool fuel
        (conv ++ dispatchCalls tool (functionCalls (candidateParts (model conv))))
        (acc ++ textsOf (candidateParts (model conv))) := by
  simp only [processQueryGo]
  rw [if_neg (by simp [h])]

/-- One loop iteration whose response contains no function call: the loop
returns the accumulated texts, newline-joined and stripped. -/
theorem processQueryGo_stop (model : Model) (tool : Tool) (fuel : Nat)
    (conv : List ConvItem) (acc : List String)
    (h : (functionCalls (candidateParts (model conv))).isEmpty = true) :
    processQueryGo model tool (fuel + 1) conv acc =
      some (pyStrip (String.intercalate "\n"
        (acc ++ textsOf (candidateParts (model conv))))) := by
  simp only [processQueryGo]
  rw [if_pos h]

/-- As long as every earlier response contained a function call, running
the loop for k further iterations reaches exactly the state (conversation
and text buffer) described by convAt and accAt. -/
theorem processQueryGo_shift (model : Model) (tool : Tool) (q : String) :
    ∀ k fuel, (∀ i, i < k → (callsAt model tool q i).isEmpty = false) →
    processQueryGo model tool (k + fuel) (initialConv q) [] =
      processQueryGo model tool fuel (convAt model tool q k) (accAt model tool q k) := by
  intro k
  induction k with
  | zero => intro fuel _; rw [Nat.zero_add]; rfl
  | succ k ih =>
      intro fuel h
      have e1 : k + 1 + fuel = k + (fuel + 1) := by omega
      rw [e1, ih (fuel + 1) (fun i hi => h i (by omega))]
      have hk : (functionCalls (candidateParts (model (convAt model tool q k)))).isEmpty
          = false := by
        simpa [callsAt, respAt] using h k (by omega)
      rw [processQueryGo_step model tool fuel _ _ hk]
      simp only [convAt, accAt, callsAt, respAt]

/-- C1: the orchestration loop of process_query terminates exactly when a
model response contains zero function-call parts. Run with enough fuel,
if the first k responses each contain a call and the k-th contains none,
the loop stops right there and returns the text parts accumulated over
responses 0..k, newline-joined then stripped of surrounding whitespace
(empty text parts are falsy in the truthiness test (elif part.text) of the source and are
never accumulated); and as long as every response seen contains a
function call the loop is still running (no unrolling bound returns). -/
theorem process_query_spec (model : Model) (tool : Tool) (q : String) (fuel : Nat) :
    (∀ k, k < fuel → (∀ i, i < k → (callsAt model tool q i).isEmpty = false) →
      (callsAt model tool q k).isEmpty = true →
      process_query model tool fuel q =
        some (pyStrip (String.intercalate "\n" (accAt model tool q (k + 1)))))
    ∧ ((∀ i, i < fuel → (callsAt model tool q i).isEmpty = false) →
      process_query model tool fuel q = none) := by
  constructor
  · intro k hk hcalls hstop
    obtain ⟨m, rfl⟩ : ∃ m, fuel = k + (m + 1) := ⟨fuel - k - 1, by omega⟩
    show processQueryGo model tool (k + (m + 1)) (initialConv q) [] = _
    rw [processQueryGo_shift model tool q k (m + 1) hcalls]
    rw [processQueryGo_stop model tool m _ _ (by simpa [callsAt, respAt] using hstop)]
    simp only [accAt, respAt]
  · intro hall
    have h := processQueryGo_shift model tool q fuel 0 hall
    rw [Nat.add_zero] at h
    show processQueryGo model tool fuel (initialConv q) [] = none
    rw [h]
    rfl

/-- C1 witness: a model that calls a tool once and then answers "hi"
makes process_query return "hi". -/
theorem process_query_spec_witness : process_query wModel wTool 3 "hello" = some "hi" := by
  have h := (process_query_spec wModel wTool "hello" 3).1 1 (by decide) (by decide) (by decide)
  exact h.trans (by decide)

/-- Appending call lists appends their dispatched conversation items. -/
theorem dispatchCalls_append (tool : Tool) (l1 l2 : List (String × JValue)) :
    dispatchCalls tool (l1 ++ l2) = dispatchCalls tool l1 ++ dispatchCalls tool l2 := by
  induction l1 with
  | nil => rfl
  | cons c rest ih => simp [dispatchCalls, ih]

/-- Closed form of the conversation sent to the k-th model request: the
initial user turn followed by the dispatched pairs of every call of the
first k responses, in order. -/
theorem convAt_closed (model : Model) (tool : Tool) (q : String) :
    ∀ k, convAt model tool q k =
      ConvItem.content ⟨"user", [GPart.text q]⟩ ::
        dispatchCalls tool (callsUpTo model tool q k) := by
  intro k
  induction k with
  | zero => rfl
  | succ k ih =>
      simp only [convAt, callsUpTo, dispatchCalls_append, callsAt, respAt, ih,
        List.cons_append]

/-- The first item of a dispatched call list is never a Content. -/
theorem dispatchCalls_head_not_content (tool : Tool) (calls : List (String × JValue))
    (c : GContent) (h : (dispatchCalls tool calls).get? 0 = some (ConvItem.content c)) :
    False := by
  cases calls with
  | nil => simp [dispatchCalls] at h
  | cons p rest => simp [dispatchCalls] at h

/-- Pairing property of a dispatched call list: a function-call part at
position j is immediately followed by its tool turn, and the item after
that (when present) is not a Content turn at all, hence not a second
tool turn. -/
theorem dispatchCalls_get (tool : Tool) :
    ∀ (calls : List (String × JValue)) (j : Nat) (n : String) (a : JValue),
      (dispatchCalls tool calls).get? j =
          some (ConvItem.part (GPart.functionCall n a)) →
      (dispatchCalls tool calls).get? (j + 1) =
          some (ConvItem.content (toolTurn tool n a))
      ∧ ∀ c : GContent, (dispatchCalls tool calls).get? (j + 2) =
          some (ConvItem.content c) → False := by
  intro calls
  induction calls with
  | nil => intro j n a h; simp [dispatchCalls] at h
  | cons p rest ih =>
      obtain ⟨n0, a0⟩ := p
      intro j n a h
      match j with
      | 0 =>
          simp [dispatchCalls] at h
          obtain ⟨hn, ha⟩ := h
          subst hn; subst ha
          refine ⟨by simp [dispatchCalls], ?_⟩
          intro c hc
          exact dispatchCalls_head_not_content tool rest c
            (by simpa [dispatchCalls] using hc)
      | 1 => simp [dispatchCalls] at h
      | j2 + 2 =>
          have h2 : (dispatchCalls tool rest).get? j2 =
              some (ConvItem.part (GPart.functionCall n a)) := by
            simpa [dispatchCalls] using h
          obtain ⟨c1, c2⟩ := ih j2 n a h2
          refine ⟨by simpa [dispatchCalls] using c1, ?_⟩
          intro c hc
          exact c2 c (by simpa [dispatchCalls] using hc)

/-- C2: in every conversation passed to a model-completion request of a
run (convAt gives exactly the conversation of the k-th request, so every
pairing is in place before any further request is issued), a
function-call part at position j is immediately followed by the tool-role
turn built for it — whose role is "tool" and whose single
function-response part carries the same tool name — and the next item
after that pair, when it exists and is a Content turn, is not a tool-role
turn, so exactly one tool turn answers the call. -/
theorem call_immediately_paired (model : Model) (tool : Tool) (q : String)
    (k j : Nat) (n : String) (a : JValue)
    (h : (convAt model tool q k).get? j =
      some (ConvItem.part (GPart.functionCall n a))) :
    (convAt model tool q k).get? (j + 1) =
      some (ConvItem.content (toolTurn tool n a))
    ∧ (toolTurn tool n a).role = "tool"
    ∧ (∃ pay : GPayload, (toolTurn tool n a).parts = [GPart.functionResponse n pay])
    ∧ ∀ c : GContent, (convAt model tool q k).get? (j + 2) =
        some (ConvItem.content c) → c.role ≠ "tool" := by
  rw [convAt_closed] at h
  cases j with
  | zero => simp at h
  | succ j1 =>
      simp only [List.get?_cons_succ] at h
      obtain ⟨c1, c2⟩ := dispatchCalls_get tool _ j1 n a h
      refine ⟨?_, rfl, ⟨_, rfl⟩, ?_⟩
      · rw [convAt_closed]
        simpa using c1
      · intro c hc
        rw [convAt_closed] at hc
        exact (c2 c (by simpa using hc)).elim

/-- C2 witness: in the conversation of the second model request of the
witness run, the dispatched call at position 1 is immediately followed by
its tool turn at position 2. -/
theorem call_immediately_paired_witness :
    (convAt wModel wTool "hello" 1).get? 2 =
      some (ConvItem.content (toolTurn wTool "t" JValue.null)) :=
  (call_immediately_paired wModel wTool "hello" 1 1 "t" JValue.null rfl).1

/-- C3: when the transport raises on a dispatched call, the tool turn
appended for that call carries the error payload {error: str(e)} instead
of a result payload, and the loop still performs its next iteration (the
step equation holds unconditionally in the embedding, where the
try/except at the dispatch site makes toolTurn total, so no exception
escapes process_query). -/
theorem tool_error_feedback (model : Model) (tool : Tool) (n : String) (a : JValue)
    (m : String) (conv : List ConvItem) (acc : List String) (fuel : Nat)
    (h : tool n a = Except.error m) :
    toolTurn tool n a = ⟨"tool", [GPart.functionResponse n (GPayload.error m)]⟩
    ∧ ((functionCalls (candidateParts (model conv))).isEmpty = false →
        processQueryGo model tool (fuel + 1) conv acc =
          processQueryGo model tool fuel
            (conv ++ dispatchCalls tool (functionCalls (candidateParts (model conv))))
            (acc ++ textsOf (candidateParts (model conv)))) := by
  refine ⟨by simp [toolTurn, h], ?_⟩
  intro hne
  exact processQueryGo_step model tool fuel conv acc hne

/-- C3 witness: a transport that raises "boom" yields the error-payload
tool turn. -/
theorem tool_error_feedback_witness :
    toolTurn wToolErr "t" JValue.null =
      ⟨"tool", [GPart.functionResponse "t" (GPayload.error "boom")]⟩ :=
  (tool_error_feedback wModel wToolErr "t" JValue.null "boom"
    (initialConv "hello") [] 0 rfl).1

end CryptoMCP
